import Mathlib

/-!
Verification of the `create_app` application factory in `src/__init__.py`.

The source is a Flask application factory:

  def create_app():
      app = Flask(__name__, template_folder="templates", static_folder="static")

      @app.get("/health")
      def health():
          return "ok"

      @app.get("/")
      def index():
          return render_template("main.html")

      return app

The embedding models the application's route table and the hosting
framework's request dispatch.  External collaborators (template engine,
static filesystem, mimetype guesser) are parameters gathered in `Env`.
Framework facts embedded here follow Flask's documented behaviour:

  * `Flask(__name__, static_folder="static")` registers a third route
    `/static/<path:filename>` (endpoint `static`) serving files from the
    static folder; a missing file raises `NotFound` (404).
  * `@app.get(path)` declares the route's methods as `GET`.  Werkzeug
    automatically adds `HEAD` (dispatched to the same handler, with the
    body stripped from the response) and Flask automatically answers
    `OPTIONS` itself (status 200 with an `Allow` header), so the
    effective method set of each rule is `GET`, `HEAD`, `OPTIONS`.  A
    request with any other method on a matched path yields the
    framework's default `405 Method Not Allowed`.
  * A handler returning a plain string is converted to a `200` response
    whose content type is Flask's default mimetype,
    `text/html; charset=utf-8`.
  * An unmatched path yields the framework's default `404 Not Found`.
  * An exception escaping a handler (here: `render_template` failing)
    yields the framework's default `500 Internal Server Error`.
-/

/-- An HTTP request as seen by the application: method, path, and the
parts the handlers never read (query string, headers, body). -/
structure Request where
  method : String
  path : String
  query : List (String × String)
  headers : List (String × String)
  body : String

/-- The URL pattern of a registered rule: either an exact path, or a
werkzeug `<path:filename>` rule `pre ++ filename` where `filename` is a
nonempty remainder not beginning with a slash. -/
inductive Pattern where
  | exact (s : String)
  | pathSuffix (pre : String)
deriving DecidableEq, Repr

/-- Whether the first character list begins the second. -/
def beginsWith : List Char → List Char → Bool
  | [], _ => true
  | _ :: _, [] => false
  | a :: as, b :: bs => a == b && beginsWith as bs

/-- Whether a pattern matches a concrete request path; a `pathSuffix`
pattern needs a nonempty remainder that does not begin with a slash. -/
def Pattern.matches : Pattern → String → Bool
  | .exact s, path => path == s
  | .pathSuffix pre, path =>
      beginsWith pre.data path.data &&
        (match path.data.drop pre.data.length with
         | [] => false
         | c :: _ => c != '/')

/-- The endpoints registered by `create_app`: the framework's static-file
endpoint and the two handlers of the source. -/
inductive Endpoint where
  | static
  | health
  | index
deriving DecidableEq, Repr

/-- One entry of the application's route table: URL pattern, declared
methods (before werkzeug's automatic `HEAD`/`OPTIONS` additions, applied
at dispatch by `effectiveMethods`), endpoint. -/
structure Rule where
  pattern : Pattern
  methods : List String
  endpoint : Endpoint
deriving DecidableEq, Repr

/-- The application object produced by the factory: the two resource
folders fixed at construction and the route table. -/
structure App where
  template_folder : String
  static_folder : String
  rules : List Rule
deriving DecidableEq, Repr

/-- The external collaborators, opaque to the application: the template
engine (`none` = template missing or rendering failed, which in Flask
raises), the static folder's contents, and the framework's mimetype
guesser for static files. -/
structure Env where
  templates : String → Option String
  staticFiles : String → Option String
  guessMimetype : String → String

/-- The external template engine: resolving and rendering a named
template, `none` when it cannot be located or fails to render. -/
def render_template (name : String) (env : Env) : Option String :=
  env.templates name

/-- A successful HTTP response: status, body, content type. -/
structure Response where
  status : Nat
  body : String
  mimetype : String
deriving DecidableEq, Repr

/-- Flask's default mimetype for responses built from a returned
string. -/
def flaskDefaultMimetype : String := "text/html; charset=utf-8"

/-- Flask's conversion of a handler's returned string into a response:
status 200, the string as body, the default mimetype. -/
def stringResponse (s : String) : Response :=
  ⟨200, s, flaskDefaultMimetype⟩

/-- The outcome of dispatching a request: a handler-produced response,
the framework's automatic `OPTIONS` answer (200, empty body, the allowed
methods in an `Allow` header), or one of the framework's default error
responses. -/
inductive Outcome where
  | ok (resp : Response)
  | autoOptions (allow : List String)
  | notFound
  | methodNotAllowed
  | serverError
deriving DecidableEq, Repr

/-- The HTTP status of an outcome; the automatic `OPTIONS` answer is 200,
the framework defaults carry 404, 405 and 500. -/
def Outcome.statusCode : Outcome → Nat
  | .ok r => r.status
  | .autoOptions _ => 200
  | .notFound => 404
  | .methodNotAllowed => 405
  | .serverError => 500

/-- The body of a response, if any; the automatic `OPTIONS` answer has an
empty body. -/
def Outcome.bodyText : Outcome → Option String
  | .ok r => some r.body
  | .autoOptions _ => some ""
  | _ => none

/-- The content type of a response, if any. -/
def Outcome.contentType : Outcome → Option String
  | .ok r => some r.mimetype
  | .autoOptions _ => some flaskDefaultMimetype
  | _ => none

/-- Body stripping for `HEAD` responses: werkzeug removes the body of the
handler's response; status and headers are kept. -/
def Outcome.stripBody : Outcome → Outcome
  | .ok r => .ok ⟨r.status, "", r.mimetype⟩
  | o => o

/-- The `health` handler of the source: `return "ok"`, reading nothing
from the request. -/
def health (_req : Request) : String := "ok"

/-- The `index` handler of the source: `return render_template("main.html")`;
a rendering failure is not caught and propagates (`none`). -/
def index (env : Env) (_req : Request) : Option String :=
  render_template "main.html" env

/-- Running one endpoint on a request: the two source handlers with
Flask's string-to-response conversion, and the framework's static-file
endpoint (filename = the path after `/static/`, 8 characters; a missing
file raises `NotFound`). An uncaught handler failure becomes the
framework's 500. -/
def runEndpoint : Endpoint → Env → Request → Outcome
  | .health, _, req => .ok (stringResponse (health req))
  | .index, env, req =>
      match index env req with
      | some s => .ok (stringResponse s)
      | none => .serverError
  | .static, env, req =>
      let filename := String.mk (req.path.data.drop 8)
      match env.staticFiles filename with
      | some content => .ok ⟨200, content, env.guessMimetype filename⟩
      | none => .notFound

/-- The methods a rule effectively accepts, from its declared methods:
werkzeug automatically adds `HEAD` when `GET` is allowed, and Flask
provides an automatic `OPTIONS` answer. -/
def effectiveMethods (ms : List String) : List String :=
  (if "GET" ∈ ms ∧ "HEAD" ∉ ms then ms ++ ["HEAD"] else ms) ++ ["OPTIONS"]

/-- Applying a matched rule to a request: a method outside the effective
set is the framework's default 405; `OPTIONS` is answered automatically
by the framework without running a handler; `HEAD` runs the rule's
handler and strips the body; otherwise the handler's outcome stands. -/
def applyRule (r : Rule) (env : Env) (req : Request) : Outcome :=
  if req.method ∈ effectiveMethods r.methods then
    if req.method = "OPTIONS" then .autoOptions (effectiveMethods r.methods)
    else if req.method = "HEAD" then (runEndpoint r.endpoint env req).stripBody
    else runEndpoint r.endpoint env req
  else .methodNotAllowed

/-- The framework's dispatch: find the first rule whose pattern matches
the request path (the three patterns are disjoint); no match is the
default 404, otherwise the matched rule is applied. -/
def dispatch (app : App) (env : Env) (req : Request) : Outcome :=
  match app.rules.find? (fun r => r.pattern.matches req.path) with
  | none => .notFound
  | some r => applyRule r env req

/-- The rule Flask registers for the static folder at construction:
`/static/<path:filename>`, methods `GET`, endpoint `static`. -/
def staticRule : Rule :=
  ⟨.pathSuffix "/static/", ["GET"], .static⟩

/-- The application factory of the source: fixed `templates` and `static`
folders; route table = the framework's static rule plus the two
`@app.get` registrations, in registration order. -/
def create_app (_ : Unit) : App :=
  { template_folder := "templates"
    static_folder := "static"
    rules :=
      [ staticRule
      , ⟨.exact "/health", ["GET"], .health⟩
      , ⟨.exact "/", ["GET"], .index⟩ ] }

/-- A concrete environment in which `main.html` renders and the static
folder holds one file `app.css`. -/
def okEnv : Env :=
  { templates := fun n => if n = "main.html" then some "<h1>hi</h1>" else none
    staticFiles := fun n => if n = "app.css" then some "css-bytes" else none
    guessMimetype := fun _ => "text/css" }

/-- A concrete environment with no templates and no static files. -/
def emptyEnv : Env :=
  { templates := fun _ => none
    staticFiles := fun _ => none
    guessMimetype := fun _ => "text/css" }

/-- A concrete request for an existing static file, on a path that is
neither `/health` nor `/`. -/
def staticReq : Request := ⟨"GET", "/static/app.css", [], [], ""⟩

/-- Formalisation of the spec's phrase "plain-text content type": the
mime string begins with `text/plain`. -/
def isPlainTextMime (m : String) : Bool := beginsWith "text/plain".data m.data

/-- C1: every GET request to `/health`, whatever its query parameters,
headers or body, gets status 200 with body exactly `ok`. -/
theorem health_get_ok (env : Env) (q hs : List (String × String)) (b : String) :
    (dispatch (create_app ()) env ⟨"GET", "/health", q, hs, b⟩).statusCode = 200 ∧
    (dispatch (create_app ()) env ⟨"GET", "/health", q, hs, b⟩).bodyText = some "ok" :=
  ⟨rfl, rfl⟩

/-- C2: when `main.html` renders to `s`, a GET request to `/` gets status
200 with body `s`, whatever its query parameters, headers or body. -/
theorem index_get_renders (env : Env) (q hs : List (String × String)) (b s : String)
    (ht : env.templates "main.html" = some s) :
    (dispatch (create_app ()) env ⟨"GET", "/", q, hs, b⟩).statusCode = 200 ∧
    (dispatch (create_app ()) env ⟨"GET", "/", q, hs, b⟩).bodyText = some s := by
  have hd : dispatch (create_app ()) env ⟨"GET", "/", q, hs, b⟩
      = runEndpoint .index env ⟨"GET", "/", q, hs, b⟩ := rfl
  rw [hd]
  simp [runEndpoint, index, render_template, ht, stringResponse,
    Outcome.statusCode, Outcome.bodyText]

/-- C2 witness: in `okEnv` the template renders and `GET /` returns it. -/
theorem index_get_renders_witness :
    okEnv.templates "main.html" = some "<h1>hi</h1>" ∧
    ((dispatch (create_app ()) okEnv ⟨"GET", "/", [], [], ""⟩).statusCode = 200 ∧
     (dispatch (create_app ()) okEnv ⟨"GET", "/", [], [], ""⟩).bodyText = some "<h1>hi</h1>") :=
  ⟨by decide, index_get_renders okEnv [] [] "" "<h1>hi</h1>" (by decide)⟩

/-- C3: when `main.html` cannot be located or fails to render, the
failure is not caught by the handler: the dispatch outcome is the
framework's default server-error response, status 500. -/
theorem index_render_failure_500 (env : Env) (q hs : List (String × String)) (b : String)
    (ht : env.templates "main.html" = none) :
    dispatch (create_app ()) env ⟨"GET", "/", q, hs, b⟩ = .serverError ∧
    (dispatch (create_app ()) env ⟨"GET", "/", q, hs, b⟩).statusCode = 500 := by
  have hd : dispatch (create_app ()) env ⟨"GET", "/", q, hs, b⟩
      = runEndpoint .index env ⟨"GET", "/", q, hs, b⟩ := rfl
  rw [hd]
  simp [runEndpoint, index, render_template, ht, Outcome.statusCode]

/-- C3 witness: in `emptyEnv` the template is missing and `GET /` is the
framework 500. -/
theorem index_render_failure_500_witness :
    emptyEnv.templates "main.html" = none ∧
    (dispatch (create_app ()) emptyEnv ⟨"GET", "/", [], [], ""⟩ = .serverError ∧
     (dispatch (create_app ()) emptyEnv ⟨"GET", "/", [], [], ""⟩).statusCode = 500) :=
  ⟨by decide, index_render_failure_500 emptyEnv [] [] "" (by decide)⟩

/-- C4: the factory may be invoked any number of times with no input; any
two invocations yield equal application values, in particular identical
route tables (in this embedding the instances are immutable values, so
they share no mutable state). -/
theorem create_app_idempotent (u v : Unit) :
    create_app u = create_app v ∧ (create_app u).rules = (create_app v).rules :=
  ⟨rfl, rfl⟩

/-- C5 counterexample: `HEAD /health`, a non-GET request to `/health`, is
not the framework 405: werkzeug dispatches it to the GET handler and
strips the body, giving 200; `OPTIONS /health` is likewise answered
automatically with 200. -/
theorem head_options_health_not_405 :
    ("HEAD" : String) ≠ "GET" ∧
    dispatch (create_app ()) emptyEnv ⟨"HEAD", "/health", [], [], ""⟩
      = .ok ⟨200, "", flaskDefaultMimetype⟩ ∧
    ¬ dispatch (create_app ()) emptyEnv ⟨"HEAD", "/health", [], [], ""⟩
      = .methodNotAllowed ∧
    ("OPTIONS" : String) ≠ "GET" ∧
    (dispatch (create_app ()) emptyEnv ⟨"OPTIONS", "/health", [], [], ""⟩).statusCode
      = 200 := by
  decide

/-- C5 amended: a request to `/health` or `/` whose method is none of
GET, HEAD and OPTIONS (in particular POST) is answered by the framework's
default 405 without running a handler; HEAD runs the GET handler with the
body stripped and OPTIONS is answered automatically by the framework,
both with status 200. -/
theorem non_listed_method_not_allowed (env : Env) (m : String)
    (q hs : List (String × String)) (b p : String)
    (hp : p = "/health" ∨ p = "/") (hm : m ≠ "GET") (hh : m ≠ "HEAD")
    (ho : m ≠ "OPTIONS") :
    dispatch (create_app ()) env ⟨m, p, q, hs, b⟩ = .methodNotAllowed ∧
    (dispatch (create_app ()) env ⟨m, p, q, hs, b⟩).statusCode = 405 := by
  have he : effectiveMethods ["GET"] = ["GET", "HEAD", "OPTIONS"] := rfl
  have hmem : m ∉ effectiveMethods ["GET"] := by
    rw [he]
    intro hmm
    rcases List.mem_cons.mp hmm with h | hmm
    · exact hm h
    rcases List.mem_cons.mp hmm with h | hmm
    · exact hh h
    rcases List.mem_cons.mp hmm with h | hmm
    · exact ho h
    · exact List.not_mem_nil m hmm
  rcases hp with rfl | rfl
  · have hd : dispatch (create_app ()) env ⟨m, "/health", q, hs, b⟩
        = applyRule ⟨.exact "/health", ["GET"], .health⟩ env ⟨m, "/health", q, hs, b⟩ :=
      rfl
    rw [hd]
    unfold applyRule
    rw [if_neg hmem]
    exact ⟨rfl, rfl⟩
  · have hd : dispatch (create_app ()) env ⟨m, "/", q, hs, b⟩
        = applyRule ⟨.exact "/", ["GET"], .index⟩ env ⟨m, "/", q, hs, b⟩ :=
      rfl
    rw [hd]
    unfold applyRule
    rw [if_neg hmem]
    exact ⟨rfl, rfl⟩

/-- C5 witness: `POST /health` is the framework 405. -/
theorem non_listed_method_not_allowed_witness :
    ("/health" = "/health" ∨ "/health" = "/") ∧
    "POST" ≠ "GET" ∧ "POST" ≠ "HEAD" ∧ "POST" ≠ "OPTIONS" ∧
    (dispatch (create_app ()) emptyEnv ⟨"POST", "/health", [], [], ""⟩ = .methodNotAllowed ∧
     (dispatch (create_app ()) emptyEnv ⟨"POST", "/health", [], [], ""⟩).statusCode = 405) :=
  ⟨Or.inl rfl, by decide, by decide, by decide,
    non_listed_method_not_allowed emptyEnv "POST" [] [] "" "/health" (Or.inl rfl)
      (by decide) (by decide) (by decide)⟩

/-- C6 counterexample: `GET /static/app.css`, whose path is neither
`/health` nor `/`, is served with status 200, not 404, when the static
folder holds `app.css`. -/
theorem static_path_served_not_404 :
    staticReq.path ≠ "/health" ∧ staticReq.path ≠ "/" ∧
    (dispatch (create_app ()) okEnv staticReq).statusCode = 200 ∧
    ¬ (dispatch (create_app ()) okEnv staticReq).statusCode = 404 := by
  decide

/-- C6 amended: a request whose path matches none of the registered
routes (`/health`, `/`, `/static/<path:filename>`) is answered by the
framework's default 404. -/
theorem unmatched_path_not_found (env : Env) (req : Request)
    (hnm : ∀ r ∈ (create_app ()).rules, r.pattern.matches req.path = false) :
    dispatch (create_app ()) env req = .notFound ∧
    (dispatch (create_app ()) env req).statusCode = 404 := by
  have hf : (create_app ()).rules.find? (fun r => r.pattern.matches req.path) = none := by
    rw [List.find?_eq_none]
    intro r hr
    simp [hnm r hr]
  have hd : dispatch (create_app ()) env req = .notFound := by
    unfold dispatch
    rw [hf]
  exact ⟨hd, by rw [hd]; rfl⟩

/-- C6 witness: `GET /nonexistent` matches no route and is the framework
404. -/
theorem unmatched_path_not_found_witness :
    (∀ r ∈ (create_app ()).rules,
        r.pattern.matches (Request.path ⟨"GET", "/nonexistent", [], [], ""⟩) = false) ∧
    (dispatch (create_app ()) emptyEnv ⟨"GET", "/nonexistent", [], [], ""⟩ = .notFound ∧
     (dispatch (create_app ()) emptyEnv ⟨"GET", "/nonexistent", [], [], ""⟩).statusCode = 404) :=
  ⟨by decide, unmatched_path_not_found emptyEnv ⟨"GET", "/nonexistent", [], [], ""⟩ (by decide)⟩

/-- C7: the factory takes no input and every instance carries the fixed
`templates` and `static` folder configuration (immutable: the instance is
a pure value). -/
theorem create_app_fixed_config (u : Unit) :
    (create_app u).template_folder = "templates" ∧
    (create_app u).static_folder = "static" :=
  ⟨rfl, rfl⟩

/-- C8 counterexample: the content type of the `GET /health` response is
Flask's default `text/html; charset=utf-8`, which is not a plain-text
content type. -/
theorem health_content_type_not_plain :
    (dispatch (create_app ()) emptyEnv ⟨"GET", "/health", [], [], ""⟩).contentType
      = some "text/html; charset=utf-8" ∧
    Option.map isPlainTextMime
      ((dispatch (create_app ()) emptyEnv ⟨"GET", "/health", [], [], ""⟩).contentType)
      = some false := by
  decide

/-- C8 amended: every GET request to `/health` carries the framework's
default content type for string returns, `text/html; charset=utf-8`. -/
theorem health_content_type_default (env : Env) (q hs : List (String × String)) (b : String) :
    (dispatch (create_app ()) env ⟨"GET", "/health", q, hs, b⟩).contentType
      = some flaskDefaultMimetype :=
  rfl

/-- C9: besides the two handlers of the source, the factory's route table
holds a third, framework-provided rule: GET `/static/<path:filename>`
with the static-file endpoint. -/
theorem static_route_registered :
    (create_app ()).rules.length = 3 ∧
    staticRule ∈ (create_app ()).rules ∧
    staticRule.pattern = .pathSuffix "/static/" ∧
    staticRule.methods = ["GET"] ∧
    staticRule.endpoint = .static := by
  refine ⟨rfl, ?_, rfl, rfl, rfl⟩
  exact List.mem_cons_self _ _

/-- C10: the health handler is a constant function: on any two requests
in any two environments it produces the identical response, the 200
`ok`. -/
theorem health_handler_constant (env1 env2 : Env) (req1 req2 : Request) :
    runEndpoint .health env1 req1 = runEndpoint .health env2 req2 ∧
    runEndpoint .health env1 req1 = .ok (stringResponse "ok") :=
  ⟨rfl, rfl⟩
